import Mathlib

/-! Shallow embedding of the feed-ingestion pipeline of DataFloren_ReeRiter
(database.py, rss_monitor.py, main.py), together with theorems checking the
specification's claims about it.  Python strings are modelled as lists of
characters, the SQLite store as lists of rows, and the HTML soup as a tree
of nodes; each definition mirrors the function of the source it is named
after. -/

namespace ReeRiter

/-- Python strings, modelled as lists of characters. -/
abbrev Str := List Char

/-- Python str.strip with no argument: whitespace removed from both ends. -/
def pyStrip (s : Str) : Str :=
  ((s.dropWhile Char.isWhitespace).reverse.dropWhile Char.isWhitespace).reverse

/-- Python str.lower. -/
def pyLower (s : Str) : Str := s.map Char.toLower

/-- Python substring containment: needle in hay. -/
def strIn (needle hay : Str) : Bool := decide (needle <:+: hay)

/-- SQLite's byte-order comparison on TEXT, for ORDER BY name. -/
def strLe : Str → Str → Bool
  | [], _ => true
  | _ :: _, [] => false
  | a :: as, b :: bs => if a == b then strLe as bs else decide (a < b)

/-! ## The persistent store (database.py)

A row per table of Database._init_db; the SQLite database is the four lists
of rows plus the AUTOINCREMENT counter for the feeds table.  `entry_id` of
processed_entries is UNIQUE NOT NULL; timestamps are abstract naturals. -/

/-- A row of the feeds table (database.py:123). -/
structure FeedRow where
  id : Nat
  url : Str
  name : Str
  is_active : Bool
  is_paywalled : Bool
  last_fetch : Option Nat
  paywall_hits : Nat
  last_paywall_hit : Option Nat
deriving DecidableEq

/-- A row of the processed_entries table (database.py:109). -/
structure ProcessedEntryRow where
  feed_id : Nat
  entry_id : Str
  title : Str
  link : Str
  published_at : Option Str
deriving DecidableEq

/-- A row of the articles table (database.py:138), the columns remove_feed touches. -/
structure ArticleRow where
  feed_id : Nat
  url : Str
deriving DecidableEq

/-- A row of the paywall_hits table (database.py:155). -/
structure PaywallHitRow where
  feed_id : Nat
  url : Str
  hit_date : Nat
deriving DecidableEq

/-- The SQLite store owned by the Database class. -/
structure Db where
  feeds : List FeedRow
  processed_entries : List ProcessedEntryRow
  articles : List ArticleRow
  paywall_hits : List PaywallHitRow
  next_feed_id : Nat
deriving DecidableEq

/-- The freshly initialised store (Database._init_db on a new file). -/
def initDb : Db := ⟨[], [], [], [], 1⟩

/-- Database.add_feed (database.py:198): rejects blank urls, returns the
existing id on a case-insensitive url collision, validates the scheme, and
otherwise inserts an active, non-paywalled feed row. -/
def add_feed (db : Db) (url name : Str) : Db × Option Nat :=
  if (pyStrip url).isEmpty then (db, none)
  else
    let url := pyStrip url
    match db.feeds.find? (fun f => pyLower f.url == pyLower url) with
    | some f => (db, some f.id)
    | none =>
      if !(List.isPrefixOf ("http://".toList) url || List.isPrefixOf ("https://".toList) url) then
        (db, none)
      else
        let fid := db.next_feed_id
        ({ db with
            feeds := db.feeds ++
              [⟨fid, url, (if name.isEmpty then url else name), true, false, none, 0, none⟩],
            next_feed_id := fid + 1 }, some fid)

/-- Insertion into a name-sorted feed list. -/
def insertByName (f : FeedRow) : List FeedRow → List FeedRow
  | [] => [f]
  | g :: gs => if strLe f.name g.name then f :: g :: gs else g :: insertByName f gs

/-- ORDER BY name over a feed list, as an insertion sort. -/
def sortByName : List FeedRow → List FeedRow
  | [] => []
  | f :: fs => insertByName f (sortByName fs)

/-- Database.get_active_feeds (database.py:344): SELECT ... FROM feeds WHERE
is_active = 1 ORDER BY name.  SQLite orders TEXT by byte value; the sort key
is the name column. -/
def get_active_feeds (db : Db) : List FeedRow :=
  sortByName (db.feeds.filter (fun f => f.is_active))

/-- Database.mark_entry_processed (database.py:378): INSERT OR IGNORE into
processed_entries (a new row only when no row carries this entry_id, by the
UNIQUE constraint), then UPDATE feeds SET last_fetch = CURRENT_TIMESTAMP
WHERE id = feed_id.  The function returns `c.rowcount > 0`, and `c.rowcount`
reflects the last statement executed, which is the feeds UPDATE: the boolean
counts the touched feed rows, not the inserted entry rows.  `now` stands for
CURRENT_TIMESTAMP. -/
def mark_entry_processed (db : Db) (feed_id : Nat) (entry_id title link : Str)
    (published_at : Option Str) (now : Nat) : Db × Bool :=
  let already := db.processed_entries.any (fun e => e.entry_id == entry_id)
  let entries :=
    if already then db.processed_entries
    else db.processed_entries ++ [⟨feed_id, entry_id, title, link, published_at⟩]
  let updated := db.feeds.countP (fun f => f.id == feed_id)
  let feeds := db.feeds.map (fun f =>
    if f.id == feed_id then { f with last_fetch := some now } else f)
  ({ db with processed_entries := entries, feeds := feeds }, decide (0 < updated))

/-- Database.is_entry_processed (database.py:416): SELECT 1 FROM
processed_entries WHERE entry_id = ?. -/
def is_entry_processed (db : Db) (entry_id : Str) : Bool :=
  db.processed_entries.any (fun e => e.entry_id == entry_id)

/-- Database.update_feed_status (database.py:438): checks the feed exists,
then updates whichever of is_active / is_paywalled was passed. -/
def update_feed_status (db : Db) (feed_id : Nat)
    (is_active is_paywalled : Option Bool) : Db × Bool :=
  if db.feeds.any (fun f => f.id == feed_id) then
    ({ db with feeds := db.feeds.map (fun f =>
        if f.id == feed_id then
          { f with is_active := is_active.getD f.is_active,
                   is_paywalled := is_paywalled.getD f.is_paywalled }
        else f) }, true)
  else (db, false)

/-- Database.mark_feed_as_paywalled (database.py:592): UPDATE feeds SET
is_paywalled = 1, is_active = 0 WHERE id = ?; returns True. -/
def mark_feed_as_paywalled (db : Db) (feed_id : Nat) : Db × Bool :=
  ({ db with feeds := db.feeds.map (fun f =>
      if f.id == feed_id then { f with is_paywalled := true, is_active := false } else f) },
   true)

/-- Database.remove_feed (database.py:620): checks the feed exists, then
deletes its articles, processed entries and paywall hits before the feed row. -/
def remove_feed (db : Db) (feed_id : Nat) : Db × Bool :=
  if db.feeds.any (fun f => f.id == feed_id) then
    ({ db with
        articles := db.articles.filter (fun a => !(a.feed_id == feed_id)),
        processed_entries := db.processed_entries.filter (fun e => !(e.feed_id == feed_id)),
        paywall_hits := db.paywall_hits.filter (fun h => !(h.feed_id == feed_id)),
        feeds := db.feeds.filter (fun f => !(f.id == feed_id)) }, true)
  else (db, false)

/-! ## Paywall detection (rss_monitor.py:276) -/

/-- The indicator phrases of RSSMonitor._detect_paywall. -/
def paywall_indicators : List Str :=
  [ "subscribe to continue reading",
    "subscribe to read the full article",
    "subscribe to access",
    "premium content",
    "subscribers only",
    "for subscribers",
    "sign in to read" ].map String.toList

/-- The newline-separated segments of the content whose stripped length
exceeds 50 characters (rss_monitor.py:302). -/
def substantialParagraphs (content : Str) : List Str :=
  (content.splitOn '\n').filter (fun p => decide (50 < (pyStrip p).length))

/-- The indicator loop of RSSMonitor._detect_paywall: for each indicator
found in the lowercased content, declare a paywall when fewer than 3
substantial paragraphs exist; otherwise keep scanning. -/
def detectLoop (content : Str) : List Str → Bool
  | [] => false
  | ind :: rest =>
    if strIn ind (pyLower content) then
      if (substantialParagraphs content).length < 3 then true
      else detectLoop content rest
    else detectLoop content rest

/-- RSSMonitor._detect_paywall (rss_monitor.py:276).  The url argument is
never read by the body. -/
def detect_paywall (content : Str) (url : Str) : Bool :=
  if content.isEmpty || (pyStrip content).length < 100 then true
  else detectLoop content paywall_indicators

/-! ## The HTML soup (BeautifulSoup as used by rss_monitor.py)

A parsed document is a forest of nodes; an element carries its tag, its
class attribute (a list of class tokens) and its children.  find / find_all
walk the tree in document order (preorder) and match elements only;
decompose removes a subtree. -/

mutual
/-- A node of the parsed HTML tree. -/
inductive Node where
  | text : Str → Node
  | elem : Str → List Str → NodeList → Node
/-- A sibling list of nodes.  (A mutual type rather than List Node, so that
the tree walks below compile to structural recursion and evaluate.) -/
inductive NodeList where
  | nil : NodeList
  | cons : Node → NodeList → NodeList
end

/-- A node list from a plain list, for writing documents down. -/
def nlist : List Node → NodeList
  | [] => .nil
  | n :: ns => .cons n (nlist ns)

/-- The children of a node (a text node has none). -/
def Node.childNodes : Node → NodeList
  | .text _ => .nil
  | .elem _ _ cs => cs

mutual
/-- Tag.get_text: the concatenated text of all descendants. -/
def getText : Node → Str
  | .text s => s
  | .elem _ _ cs => getTextF cs
/-- Tag.get_text over a sibling list. -/
def getTextF : NodeList → Str
  | .nil => []
  | .cons n ns => getText n ++ getTextF ns
end

mutual
/-- find_all of p tags over a node: the element itself when it is a p, and
every p among its descendants, in document order. -/
def pNodes : Node → List Node
  | .text _ => []
  | .elem t c cs => (if t == ("p".toList) then [Node.elem t c cs] else []) ++ pNodesF cs
/-- find_all of p tags over a sibling list. -/
def pNodesF : NodeList → List Node
  | .nil => []
  | .cons n ns => pNodes n ++ pNodesF ns
end

mutual
/-- soup.find with a predicate: the first element in document order that
satisfies it, the element itself included in the search. -/
def findFirst1 (p : Node → Bool) : Node → Option Node
  | .text _ => none
  | .elem t c cs =>
    if p (.elem t c cs) then some (.elem t c cs) else findFirst p cs
/-- soup.find over a sibling list. -/
def findFirst (p : Node → Bool) : NodeList → Option Node
  | .nil => none
  | .cons n ns =>
    match findFirst1 p n with
    | some r => some r
    | none => findFirst p ns
end

mutual
/-- decompose of every element satisfying cond (given its tag and classes)
below a node: the node is kept, matching descendants are removed with their
subtrees. -/
def removeIf (cond : Str → List Str → Bool) : Node → Node
  | .text s => .text s
  | .elem t c cs => .elem t c (removeIfF cond cs)
/-- decompose over a sibling list. -/
def removeIfF (cond : Str → List Str → Bool) : NodeList → NodeList
  | .nil => .nil
  | .cons (.text s) ns => .cons (Node.text s) (removeIfF cond ns)
  | .cons (.elem t c cs) ns =>
    if cond t c then removeIfF cond ns
    else .cons (Node.elem t c (removeIfF cond cs)) (removeIfF cond ns)
end

mutual
/-- The in-place mutation of the soup when the first element matching p is
decomposed with f: returns the original matched element and the rewritten
node. -/
def rewriteFirst1 (p : Node → Bool) (f : Node → Node) : Node → Option (Node × Node)
  | .text _ => none
  | .elem t c cs =>
    if p (.elem t c cs) then some (.elem t c cs, f (.elem t c cs))
    else
      match rewriteFirst p f cs with
      | some (m, cs2) => some (m, .elem t c cs2)
      | none => none
/-- rewriteFirst1 over a sibling list: the matched element and the list with
it rewritten in place. -/
def rewriteFirst (p : Node → Bool) (f : Node → Node) :
    NodeList → Option (Node × NodeList)
  | .nil => none
  | .cons n ns =>
    match rewriteFirst1 p f n with
    | some (m, n2) => some (m, .cons n2 ns)
    | none =>
      match rewriteFirst p f ns with
      | some (m, ns2) => some (m, .cons n ns2)
      | none => none
end

/-- Whether an element carries the class token c. -/
def hasClass (c : Str) : Node → Bool
  | .text _ => false
  | .elem _ cls _ => cls.contains c

/-- Whether an element has the tag t. -/
def hasTag (t : Str) : Node → Bool
  | .text _ => false
  | .elem tg _ _ => tg == t

/-- The default rss_content_classes list (rss_monitor.py:207 and :388). -/
def content_classes : List Str :=
  [ "entry-content", "post-content", "article-content", "content", "post",
    "article", "entry", "description", "summary", "text" ].map String.toList

/-- The main-content search order: each content class in priority order via
soup.find(class_=...), then soup.find of article, main, body. -/
def stagePreds : List (Node → Bool) :=
  content_classes.map hasClass ++
    [hasTag ("article".toList), hasTag ("main".toList), hasTag ("body".toList)]

/-- The staged soup.find: the first stage with a match wins. -/
def findStaged : List (Node → Bool) → NodeList → Option Node
  | [], _ => none
  | p :: ps, doc =>
    match findFirst p doc with
    | some n => some n
    | none => findStaged ps doc

/-- The staged find combined with the in-place decompose f of the found
main content: the original main content and the mutated soup. -/
def findDecompose (f : Node → Node) : List (Node → Bool) → NodeList →
    Option (Node × NodeList)
  | [], _ => none
  | p :: ps, doc =>
    match rewriteFirst p f doc with
    | some r => some r
    | none => findDecompose f ps doc

/-! ## Content extraction (rss_monitor.py:193 and :349) -/

/-- The non-content tags decomposed wholesale inside the main content
(rss_monitor.py:233). -/
def unwanted_tags : List Str :=
  [ "script", "style", "nav", "header", "footer", "aside" ].map String.toList

/-- The decompose of RSSMonitor._extract_paragraphs: every descendant whose
tag is unwanted is removed. -/
def decomposeUnwanted : Node → Node :=
  removeIf (fun t _ => unwanted_tags.contains t)

/-- The noise classes of RSSMonitor._extract_article_content
(rss_monitor.py:417). -/
def noise_classes : List Str :=
  [ "social-share", "related-posts", "comments", "advertisement" ].map String.toList

/-- The decompose of RSSMonitor._extract_article_content: an element listed
among the searched tags is removed only when one of its class tokens is a
noise class. -/
def decomposeNoise : Node → Node :=
  removeIf (fun t c =>
    (unwanted_tags ++ [("div".toList)]).contains t &&
      noise_classes.any (fun x => c.contains x))

/-- The qualifying paragraph texts of a forest: each p element's stripped
text, kept when non-empty and at least min_len characters long
(rss_monitor.py:237 and :244). -/
def paraTexts (min_len : Nat) (forest : NodeList) : List Str :=
  (pNodesF forest).filterMap (fun p =>
    let text := pyStrip (getText p)
    if !text.isEmpty && decide (min_len ≤ text.length) then some text else none)

/-- The footer/header deny list of RSSMonitor._extract_paragraphs
(rss_monitor.py:256). -/
def deny_phrases : List Str :=
  [ "first appeared on", "the post", "all rights reserved", "copyright",
    "follow us", "subscribe", "newsletter", "advertisement", "sponsored",
    "related articles", "share this", "comments", "login", "register"
  ].map String.toList

/-- The clean-up pass of RSSMonitor._extract_paragraphs: a paragraph whose
lowercased text contains a deny phrase is dropped whole.  (Re-parsing the
already extracted text through BeautifulSoup is the identity on the model's
plain text nodes.) -/
def cleanupParas (ps : List Str) : List Str :=
  ps.filter (fun p => !(deny_phrases.any (fun x => strIn x (pyLower p))))

/-- RSSMonitor._extract_paragraphs (rss_monitor.py:193): pick the main
content by the staged search, decompose the unwanted tags in place, collect
its qualifying paragraphs, fall back to the whole (mutated) soup when none
qualified, then apply the deny-list clean-up. -/
def extract_paragraphs (min_len : Nat) (doc : NodeList) : List Str :=
  match findDecompose decomposeUnwanted stagePreds doc with
  | some (mc, soup2) =>
    let fromMain := paraTexts min_len (decomposeUnwanted mc).childNodes
    cleanupParas (if fromMain.isEmpty then paraTexts min_len soup2 else fromMain)
  | none => cleanupParas (paraTexts min_len doc)

/-- Python text.split() with no argument followed by a space join: runs of
whitespace collapse to single spaces, ends are trimmed. -/
def pySplitWs (s : Str) : List Str :=
  (s.splitOnP Char.isWhitespace).filter (fun w => !w.isEmpty)

/-- The whitespace normalisation of rss_monitor.py:426: newlines to spaces,
carriage returns removed, whitespace runs collapsed. -/
def normalizeWs (s : Str) : Str :=
  List.intercalate (" ".toList)
    (pySplitWs ((s.map (fun ch => if ch == '\n' then ' ' else ch)).filter
      (fun ch => !(ch == '\r'))))

/-- The deny list of RSSMonitor._extract_article_content
(rss_monitor.py:430). -/
def article_deny_phrases : List Str :=
  [ "first appeared on", "the post", "all rights reserved", "copyright",
    "follow us", "subscribe", "newsletter", "advertisement", "sponsored",
    "related articles", "share this", "comments", "login", "register",
    "follow us everywhere", "bulgarianmilitary.com", "manifesto",
    "ethical principles" ].map String.toList

/-- The per-paragraph body of the extraction loop of
RSSMonitor._extract_article_content (rss_monitor.py:421 to :450): strip the
p element's text, keep it when non-empty and long enough, normalise its
whitespace, and drop it whole when it contains a deny phrase. -/
def articleParaStep (min_len : Nat) (p : Node) : Option Str :=
  let text := pyStrip (getText p)
  if !text.isEmpty && decide (min_len ≤ text.length) then
    let text2 := normalizeWs text
    if article_deny_phrases.any (fun x => strIn x (pyLower text2)) then none
    else some text2
  else none

/-- The paragraph-extraction stage of RSSMonitor._extract_article_content
(rss_monitor.py:387 to :453): pick the main content by the staged search,
decompose the noise elements, run the paragraph loop, and cap the result at
5.  No paragraph is collected when no main content is found, and there is
no whole-document fallback in this function. -/
def extract_article_paragraphs (min_len : Nat) (doc : NodeList) : List Str :=
  let paragraphs :=
    match findStaged stagePreds doc with
    | none => []
    | some mc => (pNodesF (decomposeNoise mc).childNodes).filterMap (articleParaStep min_len)
  paragraphs.take 5

/-! ## The fetcher (rss_monitor.py:44)

A run of RSSMonitor._fetch_url is driven by a trace giving each attempt's
outcome: either an HTTP response (status, content-type header, body) or a
raised request error (timeouts, connection failures, and the exception that
raise_for_status throws for a 4xx/5xx status outside the handled ones).
Along with the result, the model logs each attempt and each time.sleep. -/

/-- What one requests.get attempt produces. -/
inductive FetchOutcome where
  | response : Nat → Str → Str → FetchOutcome
  | netError : FetchOutcome

/-- The observable events of a fetch run: sleeps (their durations in
seconds) and attempts (1-based attempt numbers). -/
inductive FetchEvent where
  | sleep : Nat → FetchEvent
  | attempt : Nat → FetchEvent
deriving DecidableEq

/-- The monitor's retry configuration (RSSMonitor.__init__): max_retries
defaults to 3 and retry_delay to 5; is_feed selects feed versus article
handling. -/
structure FetchConfig where
  max_retries : Nat
  retry_delay : Nat
  is_feed : Bool
deriving DecidableEq

/-- The content-type validation of rss_monitor.py:93: HTML-like when the
lowercased header contains text/html or application/xhtml+xml. -/
def htmlLike (ct : Str) : Bool :=
  strIn ("text/html".toList) (pyLower ct) ||
    strIn ("application/xhtml+xml".toList) (pyLower ct)

/-- The loop body of RSSMonitor._fetch_url from a given attempt index with
the remaining fuel of the `for attempt in range(max_retries)` loop.  Before
every attempt but the first, time.sleep(retry_delay * (attempt + 1)); a 403
rotates the user agent and continues; a 429 sleeps retry_delay * 5 and
continues; a 404 returns None at once; any other 4xx/5xx raises in
raise_for_status and is caught as a request error, retried while attempts
remain; a non-HTML content type on an article fetch is likewise retried;
otherwise the body is returned. -/
def fetchFrom (cfg : FetchConfig) (trace : Nat → FetchOutcome) :
    Nat → Nat → Option Str × List FetchEvent
  | _, 0 => (none, [])
  | attempt, fuel + 1 =>
    let pre : List FetchEvent :=
      if 0 < attempt then [.sleep (cfg.retry_delay * (attempt + 1))] else []
    let evs := pre ++ [.attempt (attempt + 1)]
    match trace attempt with
    | .netError =>
      if attempt < cfg.max_retries - 1 then
        let r := fetchFrom cfg trace (attempt + 1) fuel
        (r.1, evs ++ r.2)
      else (none, evs)
    | .response status ct body =>
      if status == 403 then
        let r := fetchFrom cfg trace (attempt + 1) fuel
        (r.1, evs ++ r.2)
      else if status == 429 then
        let r := fetchFrom cfg trace (attempt + 1) fuel
        (r.1, evs ++ [.sleep (cfg.retry_delay * 5)] ++ r.2)
      else if status == 404 then (none, evs)
      else if 400 ≤ status && status < 600 then
        if attempt < cfg.max_retries - 1 then
          let r := fetchFrom cfg trace (attempt + 1) fuel
          (r.1, evs ++ r.2)
        else (none, evs)
      else if !cfg.is_feed && !htmlLike ct then
        if attempt < cfg.max_retries - 1 then
          let r := fetchFrom cfg trace (attempt + 1) fuel
          (r.1, evs ++ r.2)
        else (none, evs)
      else (some body, evs)

/-- RSSMonitor._fetch_url (rss_monitor.py:44): the loop started at attempt 0
with max_retries iterations available. -/
def fetch_url (cfg : FetchConfig) (trace : Nat → FetchOutcome) :
    Option Str × List FetchEvent :=
  fetchFrom cfg trace 0 cfg.max_retries

/-- The number of attempts in a fetch log. -/
def attemptsOf (l : List FetchEvent) : Nat :=
  l.countP (fun e => match e with | .attempt _ => true | _ => false)

/-- The sleep durations of a fetch log, in order. -/
def sleepsOf (l : List FetchEvent) : List Nat :=
  l.filterMap (fun e => match e with | .sleep d => some d | _ => none)

/-- The event log an all-errors run produces from attempt index a on with
the given fuel: a sleep of retry_delay * (attemptIndex + 1) before each
attempt. -/
def expectedEvents (rd : Nat) (a : Nat) : Nat → List FetchEvent
  | 0 => []
  | f + 1 =>
    FetchEvent.sleep (rd * (a + 1)) :: FetchEvent.attempt (a + 1) ::
      expectedEvents rd (a + 1) f

/-! ## Feed entries and the pipeline's dedup key (rss_monitor.py:469,
main.py:549) -/

/-- An item of a parsed feed, with the fields RSSMonitor.get_entries reads
through entry.get; a missing field is none, and a tag may lack its term. -/
structure RawEntry where
  title : Option Str
  link : Option Str
  published : Option Str
  author : Option Str
  summary : Option Str
  tags : List (Option Str)
deriving DecidableEq

/-- The article_data dictionary RSSMonitor.get_entries builds per entry
(rss_monitor.py:493): its keys are exactly title, link, published_date,
author, summary, tags and source_feed. -/
structure Entry where
  title : Str
  link : Str
  published_date : Str
  author : Str
  summary : Str
  tags : List Str
  source_feed : Str
deriving DecidableEq

/-- The record get_entries emits for one raw feed item of a given feed url:
every missing field defaults to the empty string. -/
def get_entries_record (feed_url : Str) (raw : RawEntry) : Entry :=
  { title := raw.title.getD []
    link := raw.link.getD []
    published_date := raw.published.getD []
    author := raw.author.getD []
    summary := raw.summary.getD []
    tags := raw.tags.map (fun t => t.getD [])
    source_feed := feed_url }

/-- Python dict .get over an Entry's string-valued keys; any other key
(an 'id' key in particular, which get_entries never sets) yields the
default.  The one non-string value, tags, is never read through this
lookup by the dedup computation. -/
def Entry.get (e : Entry) (key : Str) (dflt : Str) : Str :=
  if key == ("title".toList) then e.title
  else if key == ("link".toList) then e.link
  else if key == ("published_date".toList) then e.published_date
  else if key == ("author".toList) then e.author
  else if key == ("summary".toList) then e.summary
  else if key == ("source_feed".toList) then e.source_feed
  else dflt

/-- The dedup key of main.py:552: entry.get('id', entry.get('link', '')). -/
def dedup_key (e : Entry) : Str :=
  e.get ("id".toList) (e.get ("link".toList) [])

/-- How the main loop disposes of one entry at the dedup check
(main.py:554): an already processed key is skipped as a duplicate, any
other entry goes on to extraction. -/
inductive EntryDisposition where
  | skippedDuplicate
  | processedFurther
deriving DecidableEq

/-- The dedup check of main.py:549 to :557. -/
def classify_entry (db : Db) (e : Entry) : EntryDisposition :=
  if is_entry_processed db (dedup_key e) then .skippedDuplicate
  else .processedFurther

/-! ## Concrete fixtures for the witnesses and counterexamples -/

/-- An active, non-paywalled feed row. -/
def feedA : FeedRow :=
  ⟨1, "https://a.example/feed".toList, "A".toList, true, false, none, 0, none⟩

/-- A second active, non-paywalled feed row. -/
def feedB : FeedRow :=
  ⟨2, "https://b.example/feed".toList, "B".toList, true, false, none, 0, none⟩

/-- A store holding just feedA. -/
def dbA : Db := ⟨[feedA], [], [], [], 2⟩

/-- A store holding feedA and feedB. -/
def dbAB : Db := ⟨[feedA, feedB], [], [], [], 3⟩

/-- The store after add_feed and an update_feed_status call that sets
is_paywalled without touching is_active. -/
def c2_db : Db :=
  (update_feed_status
    (add_feed initDb ("https://a.example/feed".toList) ("A".toList)).1
    1 none (some true)).1

/-- A paragraph text below the 20-character default minimum. -/
def shortText : Str := "too short".toList

/-- A qualifying, deny-free paragraph text. -/
def longText : Str :=
  "This qualifying paragraph lives outside the chosen main container of the page.".toList

/-- A document whose chosen main container (the div of class content) holds
only a too-short paragraph while a qualifying paragraph sits outside it. -/
def doc6 : NodeList :=
  nlist [ .elem ("body".toList) [] (nlist [
      .elem ("div".toList) [ ("content".toList) ] (nlist [
        .elem ("p".toList) [] (nlist [ .text shortText ]) ]),
      .elem ("p".toList) [] (nlist [ .text longText ]) ]) ]

/-- The main container the staged search picks inside doc6. -/
def mc6 : Node :=
  .elem ("div".toList) [ ("content".toList) ] (nlist [
    .elem ("p".toList) [] (nlist [ .text shortText ]) ])

/-- A qualifying, deny-free paragraph element. -/
def p9 : Node :=
  .elem ("p".toList) []
    (nlist [ .text ("The quick brown fox jumps over the lazy dog near the riverbank well before breakfast.".toList) ])

/-- A document whose entry-content container holds the paragraph p9. -/
def doc9 : NodeList :=
  nlist [ .elem ("body".toList) [] (nlist [
      .elem ("div".toList) [ ("entry-content".toList) ] (nlist [ p9 ]) ]) ]

/-- The main container the staged search picks inside doc9. -/
def mc9 : Node := .elem ("div".toList) [ ("entry-content".toList) ] (nlist [ p9 ])

/-- The default retry configuration of RSSMonitor.__init__. -/
def cfg_default : FetchConfig := ⟨3, 5, true⟩

/-- A trace on which every attempt raises a request error. -/
def allNetError : Nat → FetchOutcome := fun _ => .netError

/-- A trace on which every attempt answers 404. -/
def trace404 : Nat → FetchOutcome := fun _ => .response 404 [] []

/-- A feed item that supplies neither a native id nor a link. -/
def rawNoLink : RawEntry := ⟨none, none, none, none, none, []⟩

/-! ## Helper lemmas -/

lemma length_dropWhile_le (p : Char → Bool) (l : Str) :
    (l.dropWhile p).length ≤ l.length := by
  induction l with
  | nil => simp
  | cons a l ih =>
    rw [List.dropWhile_cons]
    split
    · exact le_trans ih (by simp)
    · simp

lemma pyStrip_length_le (s : Str) : (pyStrip s).length ≤ s.length := by
  unfold pyStrip
  rw [List.length_reverse]
  calc ((s.dropWhile Char.isWhitespace).reverse.dropWhile Char.isWhitespace).length
      ≤ (s.dropWhile Char.isWhitespace).reverse.length := length_dropWhile_le _ _
    _ = (s.dropWhile Char.isWhitespace).length := List.length_reverse _
    _ ≤ s.length := length_dropWhile_le _ _

lemma mem_insertByName (x f : FeedRow) (l : List FeedRow) :
    x ∈ insertByName f l ↔ x = f ∨ x ∈ l := by
  induction l with
  | nil => simp [insertByName]
  | cons g gs ih =>
    unfold insertByName
    split
    · simp
    · simp [ih]
      tauto

lemma mem_sortByName (x : FeedRow) (l : List FeedRow) :
    x ∈ sortByName l ↔ x ∈ l := by
  induction l with
  | nil => simp [sortByName]
  | cons f fs ih =>
    unfold sortByName
    rw [mem_insertByName]
    simp [ih]

lemma detectLoop_eq (c : Str) (inds : List Str) :
    detectLoop c inds =
      (inds.any (fun i => strIn i (pyLower c)) &&
        decide ((substantialParagraphs c).length < 3)) := by
  induction inds with
  | nil => simp [detectLoop]
  | cons i rest ih =>
    unfold detectLoop
    by_cases h1 : strIn i (pyLower c)
    · by_cases h2 : (substantialParagraphs c).length < 3
      · simp [h1, h2]
      · simp [h1, h2, ih]
    · simp [h1, ih]

/-! ## Claim C4 -/

/-- C4: for every content string shorter than 100 characters (the empty
string included) and every url, RSSMonitor._detect_paywall returns true. -/
theorem detect_paywall_short (c url : Str) (h : c.length < 100) :
    detect_paywall c url = true := by
  have hs : (pyStrip c).length < 100 := lt_of_le_of_lt (pyStrip_length_le c) h
  unfold detect_paywall
  simp [hs]

/-- Witness for C4 at a concrete short content string. -/
theorem detect_paywall_short_witness :
    ("short".toList : Str).length < 100 ∧
      detect_paywall ("short".toList) [] = true :=
  ⟨by decide, detect_paywall_short ("short".toList) [] (by decide)⟩

/-! ## Claim C5 -/

/-- C5: for content of at least 100 stripped characters,
RSSMonitor._detect_paywall returns true exactly when the lowercased content
contains one of the hard-block indicator phrases and fewer than 3
substantial paragraphs (newline segments of stripped length above 50)
exist; and the result does not depend on the url argument. -/
theorem detect_paywall_long_iff (c url : Str) (h : 100 ≤ (pyStrip c).length) :
    (detect_paywall c url = true ↔
      ((∃ i ∈ paywall_indicators, strIn i (pyLower c) = true) ∧
        (substantialParagraphs c).length < 3)) ∧
    ∀ u v : Str, detect_paywall c u = detect_paywall c v := by
  constructor
  · have hne : c.isEmpty = false := by
      cases c with
      | nil => simp [pyStrip] at h
      | cons a l => rfl
    have hge : ¬ (pyStrip c).length < 100 := not_lt.mpr h
    unfold detect_paywall
    rw [hne]
    simp [hge, detectLoop_eq, List.any_eq_true]
  · intro u v
    rfl

/-- Witness for C5 at a concrete 100-character content string. -/
theorem detect_paywall_long_iff_witness :
    100 ≤ (pyStrip (List.replicate 100 'a')).length ∧
    ((detect_paywall (List.replicate 100 'a') [] = true ↔
      ((∃ i ∈ paywall_indicators, strIn i (pyLower (List.replicate 100 'a')) = true) ∧
        (substantialParagraphs (List.replicate 100 'a')).length < 3)) ∧
    ∀ u v : Str,
      detect_paywall (List.replicate 100 'a') u = detect_paywall (List.replicate 100 'a') v) :=
  ⟨by decide, detect_paywall_long_iff (List.replicate 100 'a') [] (by decide)⟩

/-! ## Claim C2 -/

/-- C2, counterexample: Database.get_active_feeds selects on is_active alone
(database.py:355 to :361), so the reachable state add_feed followed by
update_feed_status(1, is_paywalled=True) yields an active feed whose
paywalled flag is set, and get_active_feeds returns it — against the
claim that every returned feed has paywalled=false. -/
theorem get_active_feeds_paywalled_cx :
    (get_active_feeds c2_db).map (fun f => (f.id, f.is_active, f.is_paywalled)) =
      [(1, true, true)] := by
  decide

/-- C2 as amended: every feed Database.get_active_feeds returns has
active=true; the query does not test the paywalled flag, so a feed whose
paywalled flag was set through update_feed_status (which leaves is_active
untouched) is still selected. -/
theorem get_active_feeds_active (db : Db) (f : FeedRow)
    (hf : f ∈ get_active_feeds db) : f.is_active = true := by
  unfold get_active_feeds at hf
  rw [mem_sortByName] at hf
  exact (List.mem_filter.mp hf).2

/-- Witness for the amended C2 at a concrete store. -/
theorem get_active_feeds_active_witness :
    feedA ∈ get_active_feeds dbA ∧ feedA.is_active = true :=
  ⟨by decide, get_active_feeds_active dbA feedA (by decide)⟩

/-! ## Claim C3 -/

/-- C3: after Database.mark_feed_as_paywalled(fid) — which sets
is_paywalled=1 and is_active=0 in one UPDATE — get_active_feeds never
returns a feed with id fid. -/
theorem mark_feed_as_paywalled_excluded (db : Db) (fid : Nat) (f : FeedRow)
    (hf : f ∈ get_active_feeds (mark_feed_as_paywalled db fid).1) :
    f.id ≠ fid := by
  intro hid
  unfold get_active_feeds at hf
  rw [mem_sortByName] at hf
  obtain ⟨hmem, hact⟩ := List.mem_filter.mp hf
  unfold mark_feed_as_paywalled at hmem
  simp only at hmem
  obtain ⟨x, hx, hfx⟩ := List.mem_map.mp hmem
  by_cases hxid : x.id == fid
  · rw [if_pos hxid] at hfx
    rw [← hfx] at hact
    simp at hact
  · rw [if_neg hxid] at hfx
    rw [← hfx] at hid
    exact hxid (by simp [hid])

/-- Witness for C3: after paywalling feed 1 in a two-feed store, the
remaining active feed is not feed 1. -/
theorem mark_feed_as_paywalled_excluded_witness :
    feedB ∈ get_active_feeds (mark_feed_as_paywalled dbAB 1).1 ∧ feedB.id ≠ 1 :=
  ⟨by decide, mark_feed_as_paywalled_excluded dbAB 1 feedB (by decide)⟩

/-! ## Claim C1 -/

lemma mark_entry_processed_entries (db : Db) (fid : Nat) (eid t l : Str)
    (p : Option Str) (n : Nat) :
    (mark_entry_processed db fid eid t l p n).1.processed_entries =
      if db.processed_entries.any (fun e => e.entry_id == eid) then db.processed_entries
      else db.processed_entries ++ [⟨fid, eid, t, l, p⟩] := rfl

lemma mark_entry_processed_feeds (db : Db) (fid : Nat) (eid t l : Str)
    (p : Option Str) (n : Nat) :
    (mark_entry_processed db fid eid t l p n).1.feeds =
      db.feeds.map (fun f => if f.id == fid then { f with last_fetch := some n } else f) := rfl

lemma mark_entry_processed_ret (db : Db) (fid : Nat) (eid t l : Str)
    (p : Option Str) (n : Nat) :
    (mark_entry_processed db fid eid t l p n).2 =
      decide (0 < db.feeds.countP (fun f => f.id == fid)) := rfl

lemma countP_id_after_mark (feeds : List FeedRow) (fid : Nat) (n : Nat) :
    (feeds.map (fun f => if f.id == fid then { f with last_fetch := some n } else f)).countP
        (fun f => f.id == fid) =
      feeds.countP (fun f => f.id == fid) := by
  rw [List.countP_map]
  apply List.countP_congr
  intro f _
  by_cases h : f.id = fid
  · simp [h]
  · simp [h]

/-- C1, counterexample: with feed 1 present, the second
Database.mark_entry_processed call with the same entry id inserts no
ProcessedEntry row yet returns true, because the returned `c.rowcount > 0`
reflects the feeds UPDATE (the last statement executed), not the INSERT OR
IGNORE — against the claim that the return value is true iff a new row was
inserted by that call. -/
theorem mark_entry_processed_second_call_cx :
    ((mark_entry_processed (mark_entry_processed dbA 1 ("E1".toList) ("T".toList)
        ("L".toList) none 0).1 1 ("E1".toList) ("T".toList) ("L".toList) none 1).2 = true) ∧
    ((mark_entry_processed (mark_entry_processed dbA 1 ("E1".toList) ("T".toList)
        ("L".toList) none 0).1 1 ("E1".toList) ("T".toList) ("L".toList) none 1).1.processed_entries =
      (mark_entry_processed dbA 1 ("E1".toList) ("T".toList) ("L".toList) none 0).1.processed_entries) := by
  decide

/-- C1 as amended: calling Database.mark_entry_processed twice with the
same entry id leaves exactly one ProcessedEntry row with that entry_id
(given the UNIQUE-constraint invariant that at most one such row existed
before); the second call's return value, however, is true iff the feeds
UPDATE touched a row — that is, iff a feed with that id exists — regardless
of whether a new ProcessedEntry row was inserted. -/
theorem mark_entry_processed_twice (db : Db) (fid : Nat) (eid t l : Str)
    (p : Option Str) (n1 n2 : Nat)
    (h : db.processed_entries.countP (fun e => e.entry_id == eid) ≤ 1) :
    ((mark_entry_processed (mark_entry_processed db fid eid t l p n1).1
        fid eid t l p n2).1.processed_entries.countP (fun e => e.entry_id == eid) = 1) ∧
    ((mark_entry_processed (mark_entry_processed db fid eid t l p n1).1
        fid eid t l p n2).2 = true ↔
      db.feeds.any (fun f => f.id == fid) = true) := by
  constructor
  · rw [mark_entry_processed_entries, mark_entry_processed_entries]
    by_cases hA : db.processed_entries.any (fun e => e.entry_id == eid)
    · have hpos : 0 < db.processed_entries.countP (fun e => e.entry_id == eid) := by
        rw [List.countP_pos_iff]
        exact List.any_eq_true.mp hA
      rw [if_pos hA, if_pos hA]
      omega
    · have hAf : db.processed_entries.any (fun e => e.entry_id == eid) = false := by
        rw [← Bool.not_eq_true]
        exact hA
      have hzero : db.processed_entries.countP (fun e => e.entry_id == eid) = 0 := by
        rw [List.countP_eq_zero]
        exact List.any_eq_false.mp hAf
      have hA2 : (db.processed_entries ++
          [(⟨fid, eid, t, l, p⟩ : ProcessedEntryRow)]).any
            (fun e => e.entry_id == eid) = true := by
        rw [List.any_append]
        simp
      rw [if_neg hA, if_pos hA2, List.countP_append, hzero]
      simp
  · rw [mark_entry_processed_ret, mark_entry_processed_feeds, countP_id_after_mark]
    rw [List.any_eq_true]
    simp [List.countP_pos_iff]

/-- Witness for the amended C1 at a concrete store. -/
theorem mark_entry_processed_twice_witness :
    dbA.processed_entries.countP (fun e => e.entry_id == ("E1".toList)) ≤ 1 ∧
    (((mark_entry_processed (mark_entry_processed dbA 1 ("E1".toList) ("T".toList)
        ("L".toList) none 0).1 1 ("E1".toList) ("T".toList) ("L".toList) none 1).1.processed_entries.countP
          (fun e => e.entry_id == ("E1".toList)) = 1) ∧
     ((mark_entry_processed (mark_entry_processed dbA 1 ("E1".toList) ("T".toList)
        ("L".toList) none 0).1 1 ("E1".toList) ("T".toList) ("L".toList) none 1).2 = true ↔
       dbA.feeds.any (fun f => f.id == 1) = true)) :=
  ⟨by decide, mark_entry_processed_twice dbA 1 ("E1".toList) ("T".toList) ("L".toList)
    none 0 1 (by decide)⟩

/-! ## Claim C10 -/

/-- C10: the records RSSMonitor.get_entries emits carry no id key, so the
pipeline's dedup key entry.get('id', entry.get('link', '')) is always the
record's link value; an entry supplying neither a native id nor a link gets
the empty-string key, and once an empty-keyed entry has been marked
processed, every later entry without a link — whatever its feed — is
classified a duplicate at the dedup check of main.py and skipped (the code
has no branch rejecting it as a configuration error). -/
theorem get_entries_dedup_key_link :
    (∀ (e : Entry) (d : Str), e.get ("id".toList) d = d) ∧
    (∀ e : Entry, dedup_key e = e.link) ∧
    (∀ (fu : Str) (raw : RawEntry), raw.link = none →
      dedup_key (get_entries_record fu raw) = []) ∧
    (∀ (db : Db) (fid : Nat) (t l : Str) (p : Option Str) (n : Nat)
        (fu fu2 : Str) (raw raw2 : RawEntry), raw.link = none → raw2.link = none →
      classify_entry
        (mark_entry_processed db fid (dedup_key (get_entries_record fu raw)) t l p n).1
        (get_entries_record fu2 raw2) = .skippedDuplicate) := by
  have hid : ∀ (e : Entry) (d : Str), e.get ("id".toList) d = d := fun e d => rfl
  have hlink : ∀ e : Entry, dedup_key e = e.link := fun e => rfl
  have hnone : ∀ (fu : Str) (raw : RawEntry), raw.link = none →
      dedup_key (get_entries_record fu raw) = [] := by
    intro fu raw h
    rw [hlink]
    show raw.link.getD [] = []
    rw [h]
    rfl
  refine ⟨hid, hlink, hnone, ?_⟩
  intro db fid t l p n fu fu2 raw raw2 h1 h2
  unfold classify_entry
  rw [hnone fu2 raw2 h2, hnone fu raw h1]
  have hproc : is_entry_processed (mark_entry_processed db fid [] t l p n).1 [] = true := by
    unfold is_entry_processed
    rw [mark_entry_processed_entries]
    by_cases hA : db.processed_entries.any (fun e => e.entry_id == ([] : Str))
    · rw [if_pos hA]
      exact hA
    · rw [if_neg hA, List.any_append]
      simp
  rw [hproc]
  rfl

/-- Witness for C10 at a concrete store and a concrete id-less, link-less
feed item. -/
theorem get_entries_dedup_key_link_witness :
    classify_entry
      (mark_entry_processed dbA 1 (dedup_key (get_entries_record [] rawNoLink))
         [] [] none 0).1
      (get_entries_record [] rawNoLink) = .skippedDuplicate :=
  get_entries_dedup_key_link.2.2.2 dbA 1 [] [] none 0 [] [] rawNoLink rawNoLink rfl rfl

/-! ## Claim C6 -/

set_option maxRecDepth 16000 in
/-- C6, counterexample: in doc6 the staged search picks the div of class
content, whose only paragraph is below the minimum length, so the
paragraph-extraction stage of RSSMonitor._extract_article_content returns
the empty list even though a qualifying paragraph exists elsewhere in the
document — that function has no whole-document fallback (the fallback
lives in RSSMonitor._extract_paragraphs). -/
theorem extract_article_content_no_fallback_cx :
    (findStaged stagePreds doc6).isSome = true ∧
    extract_article_paragraphs 20 doc6 = [] ∧
    paraTexts 20 doc6 ≠ [] := by
  decide

/-- C6 as amended: the zero-qualifying-paragraph fallback is implemented in
RSSMonitor._extract_paragraphs, not in RSSMonitor._extract_article_content:
there, when the chosen main container yields no qualifying paragraph, the
candidates come from scanning the entire (mutated) document under the same
minimum-length filter, so a qualifying paragraph anywhere in the document
that carries no deny phrase makes the result non-empty.
_extract_article_content itself returns an empty paragraph list in that
situation (see the counterexample). -/
theorem extract_paragraphs_fallback (min_len : Nat) (doc : NodeList)
    (mc : Node) (soup2 : NodeList)
    (hfind : findDecompose decomposeUnwanted stagePreds doc = some (mc, soup2))
    (hempty : paraTexts min_len (decomposeUnwanted mc).childNodes = []) :
    extract_paragraphs min_len doc = cleanupParas (paraTexts min_len soup2) ∧
    (∀ t ∈ paraTexts min_len soup2,
      deny_phrases.any (fun x => strIn x (pyLower t)) = false →
      extract_paragraphs min_len doc ≠ []) := by
  have heq : extract_paragraphs min_len doc = cleanupParas (paraTexts min_len soup2) := by
    unfold extract_paragraphs
    rw [hfind]
    simp [hempty]
  refine ⟨heq, ?_⟩
  intro t ht hclean
  rw [heq]
  have hmem : t ∈ cleanupParas (paraTexts min_len soup2) := by
    unfold cleanupParas
    rw [List.mem_filter]
    exact ⟨ht, by simp [hclean]⟩
  exact List.ne_nil_of_mem hmem

set_option maxRecDepth 16000 in
/-- Witness for the amended C6 at doc6: the chosen container yields no
qualifying paragraph, the whole-document scan finds the outside paragraph,
and _extract_paragraphs returns a non-empty list. -/
theorem extract_paragraphs_fallback_witness :
    extract_paragraphs 20 doc6 = cleanupParas (paraTexts 20 doc6) ∧
    extract_paragraphs 20 doc6 ≠ [] := by
  have h := extract_paragraphs_fallback 20 doc6 mc6 doc6 rfl (by decide)
  exact ⟨h.1, h.2 longText (by decide) (by decide)⟩

/-! ## Claim C9 -/

lemma articleParaStep_some (min_len : Nat) (p : Node) (q : Str)
    (h : articleParaStep min_len p = some q) :
    article_deny_phrases.any
        (fun x => strIn x (pyLower (normalizeWs (pyStrip (getText p))))) = false ∧
      q = normalizeWs (pyStrip (getText p)) := by
  unfold articleParaStep at h
  by_cases h1 : (!(pyStrip (getText p)).isEmpty &&
      decide (min_len ≤ (pyStrip (getText p)).length)) = true
  · rw [if_pos h1] at h
    by_cases h2 : article_deny_phrases.any
        (fun x => strIn x (pyLower (normalizeWs (pyStrip (getText p))))) = true
    · rw [if_pos h2] at h
      exact absurd h (by simp)
    · rw [if_neg h2] at h
      exact ⟨by simpa using h2, (Option.some.injEq _ _ ▸ h).symm⟩
  · rw [if_neg h1] at h
    exact absurd h (by simp)

/-- C9: every paragraph the extraction stage of
RSSMonitor._extract_article_content returns is free of every deny-listed
phrase as a case-insensitive substring (an offending paragraph is dropped
whole); and when the chosen main container holds a paragraph that is
non-empty after stripping, at least min_len characters long, and deny-free
after whitespace normalisation, the returned list is non-empty. -/
theorem extract_article_content_deny_filter (min_len : Nat) (doc : NodeList) :
    (∀ q ∈ extract_article_paragraphs min_len doc, ∀ x ∈ article_deny_phrases,
      strIn x (pyLower q) = false) ∧
    (∀ mc, findStaged stagePreds doc = some mc →
      (∃ p ∈ pNodesF (decomposeNoise mc).childNodes,
        pyStrip (getText p) ≠ [] ∧ min_len ≤ (pyStrip (getText p)).length ∧
        article_deny_phrases.any
          (fun x => strIn x (pyLower (normalizeWs (pyStrip (getText p))))) = false) →
      extract_article_paragraphs min_len doc ≠ []) := by
  constructor
  · intro q hq x hx
    unfold extract_article_paragraphs at hq
    have hq2 := List.take_subset 5 _ hq
    cases hfind : findStaged stagePreds doc with
    | none =>
      rw [hfind] at hq2
      simp at hq2
    | some mc =>
      rw [hfind] at hq2
      obtain ⟨p, hp, hfp⟩ := List.mem_filterMap.mp hq2
      obtain ⟨hdeny, hqe⟩ := articleParaStep_some min_len p q hfp
      rw [hqe]
      simpa using List.any_eq_false.mp hdeny x hx
  · intro mc hfind hex
    obtain ⟨p, hp, hne, hlen, hdeny⟩ := hex
    have hstep : articleParaStep min_len p =
        some (normalizeWs (pyStrip (getText p))) := by
      unfold articleParaStep
      rw [if_pos, if_neg]
      · rw [hdeny]
        simp
      · simp [hne, hlen]
    have hmem : normalizeWs (pyStrip (getText p)) ∈
        (pNodesF (decomposeNoise mc).childNodes).filterMap (articleParaStep min_len) :=
      List.mem_filterMap.mpr ⟨p, hp, hstep⟩
    unfold extract_article_paragraphs
    rw [hfind]
    show (List.filterMap (articleParaStep min_len)
      (pNodesF (decomposeNoise mc).childNodes)).take 5 ≠ []
    obtain ⟨a, as, hcons⟩ := List.exists_cons_of_ne_nil (List.ne_nil_of_mem hmem)
    rw [hcons]
    simp

set_option maxRecDepth 16000 in
/-- Witness for C9 at doc9: the entry-content container holds one long,
deny-free paragraph and extraction returns a non-empty list. -/
theorem extract_article_content_deny_filter_witness :
    extract_article_paragraphs 20 doc9 ≠ [] :=
  (extract_article_content_deny_filter 20 doc9).2 mc9 rfl
    ⟨p9, show p9 ∈ [p9] from List.mem_cons_self p9 [], by decide, by decide, by decide⟩

/-! ## Claim C7 -/

lemma fetchFrom_netError (cfg : FetchConfig) (trace : Nat → FetchOutcome)
    (h : ∀ k, trace k = .netError) :
    ∀ (fuel attempt : Nat), 1 ≤ attempt → attempt + fuel = cfg.max_retries →
      fetchFrom cfg trace attempt fuel =
        (none, expectedEvents cfg.retry_delay attempt fuel) := by
  intro fuel
  induction fuel with
  | zero =>
    intro a h1 h2
    rfl
  | succ f ih =>
    intro a h1 h2
    rw [fetchFrom, h a]
    simp only [if_pos (show 0 < a from h1)]
    by_cases hf : 0 < f
    · rw [if_pos (show a < cfg.max_retries - 1 by omega)]
      rw [ih (a + 1) (by omega) (by omega)]
      rfl
    · have hf0 : f = 0 := by omega
      subst hf0
      rw [if_neg (show ¬ a < cfg.max_retries - 1 by omega)]
      rfl

lemma attemptsOf_expectedEvents (rd a f : Nat) :
    attemptsOf (expectedEvents rd a f) = f := by
  induction f generalizing a with
  | zero => rfl
  | succ f ih =>
    have h := ih (a + 1)
    unfold attemptsOf at h ⊢
    rw [expectedEvents, List.countP_cons, List.countP_cons, h]
    simp

lemma sleepsOf_expectedEvents (rd a f : Nat) :
    sleepsOf (expectedEvents rd a f) =
      (List.range f).map (fun k => rd * (a + k + 1)) := by
  induction f generalizing a with
  | zero => rfl
  | succ f ih =>
    show rd * (a + 1) :: sleepsOf (expectedEvents rd (a + 1) f) = _
    rw [ih (a + 1), List.range_succ_eq_map, List.map_cons, List.map_map]
    refine congrArg₂ _ (congrArg _ (by omega)) ?_
    apply List.map_congr_left
    intro k _
    show rd * (a + 1 + k + 1) = rd * (a + Nat.succ k + 1)
    exact congrArg _ (by omega)

/-- C7: on a url whose every attempt ends in a transient request error,
RSSMonitor._fetch_url makes at most max_retries attempts (3 by default),
returns None, and the delays slept before the retries follow the linearly
increasing schedule retry_delay * attemptNumber of rss_monitor.py:69: the
k-th entry of the sleep log (k counted from 0, slept before attempt number
k + 2) is retry_delay * (k + 2). -/
theorem fetch_url_retry_schedule (cfg : FetchConfig) (trace : Nat → FetchOutcome)
    (h : ∀ k, trace k = FetchOutcome.netError) :
    (fetch_url cfg trace).1 = none ∧
    attemptsOf (fetch_url cfg trace).2 ≤ cfg.max_retries ∧
    sleepsOf (fetch_url cfg trace).2 =
      (List.range (cfg.max_retries - 1)).map (fun k => cfg.retry_delay * (k + 2)) := by
  unfold fetch_url
  rcases hmr : cfg.max_retries with _ | m
  · exact ⟨rfl, by simp [fetchFrom, attemptsOf], by simp [fetchFrom, sleepsOf]⟩
  · rw [fetchFrom, h 0]
    simp only [if_neg (lt_irrefl 0), List.nil_append]
    by_cases hm : 0 < m
    · rw [if_pos (show 0 < cfg.max_retries - 1 by omega)]
      rw [fetchFrom_netError cfg trace h m 1 (le_refl 1) (by omega)]
      refine ⟨rfl, ?_, ?_⟩
      · show attemptsOf (FetchEvent.attempt 1 :: expectedEvents cfg.retry_delay 1 m) ≤ m + 1
        rw [show attemptsOf (FetchEvent.attempt 1 :: expectedEvents cfg.retry_delay 1 m) =
            1 + attemptsOf (expectedEvents cfg.retry_delay 1 m) by
          simp [attemptsOf, List.countP_cons]; omega]
        rw [attemptsOf_expectedEvents]
        omega
      · show sleepsOf (FetchEvent.attempt 1 :: expectedEvents cfg.retry_delay 1 m) = _
        rw [show sleepsOf (FetchEvent.attempt 1 :: expectedEvents cfg.retry_delay 1 m) =
            sleepsOf (expectedEvents cfg.retry_delay 1 m) from rfl]
        rw [sleepsOf_expectedEvents]
        apply List.map_congr_left
        intro k _
        exact congrArg _ (by omega)
    · have hm0 : m = 0 := by omega
      subst hm0
      rw [if_neg (show ¬ 0 < cfg.max_retries - 1 by omega)]
      exact ⟨rfl, by simp [attemptsOf], by simp [sleepsOf]⟩

/-- Witness for C7 at the default configuration: three attempts, sleeps of
10 then 15 seconds (5 * 2 and 5 * 3), and no content. -/
theorem fetch_url_retry_schedule_witness :
    (fetch_url cfg_default allNetError).1 = none ∧
    attemptsOf (fetch_url cfg_default allNetError).2 ≤ cfg_default.max_retries ∧
    sleepsOf (fetch_url cfg_default allNetError).2 = [10, 15] := by
  have h := fetch_url_retry_schedule cfg_default allNetError (fun k => rfl)
  exact ⟨h.1, h.2.1, by rw [h.2.2]; rfl⟩

/-! ## Claim C8 -/

/-- C8: whenever the response of the current attempt carries status 404,
RSSMonitor._fetch_url returns None right there (rss_monitor.py:86): however
much fuel the retry loop still has, the run from that attempt performs
exactly that one attempt, sleeps nothing afterwards, and yields no
content. -/
theorem fetch_url_404_immediate (cfg : FetchConfig) (trace : Nat → FetchOutcome)
    (attempt fuel : Nat) (ct body : Str)
    (h : trace attempt = .response 404 ct body) :
    fetchFrom cfg trace attempt (fuel + 1) =
      (none,
        (if 0 < attempt then [FetchEvent.sleep (cfg.retry_delay * (attempt + 1))] else []) ++
          [FetchEvent.attempt (attempt + 1)]) := by
  rw [fetchFrom, h]
  rfl

/-- Witness for C8: a 404 on the very first attempt of a three-retry run
ends it with a single attempt and no sleep. -/
theorem fetch_url_404_immediate_witness :
    fetchFrom cfg_default trace404 0 3 = (none, [FetchEvent.attempt 1]) := by
  have h := fetch_url_404_immediate cfg_default trace404 0 2 [] [] rfl
  simpa using h

end ReeRiter
